import Mathlib

/-!
Verification development for the NodeODM task-orchestration engine
(src/libs/Task.js, src/libs/SingularTask.js, src/libs/processRunner.js).

The data model and operations below are a shallow embedding of the
JavaScript source.  Pure functions become Lean functions; the stateful
methods of the `Task` class become explicit state-passing functions on a
`TaskState` record.  External effects (file system, child processes, S3,
HTTP) are not modelled as effects: only their influence on the task's
observable state (status, progress, log lines, running-process handles)
is kept, each taken directly from the corresponding line of the source.
-/

namespace NodeODM

/-- Modelled from the spec: the `statusCodes` module required by
`Task.js` is not under `src/`; the spec (section 3) states that the status
code ranges over the five distinct constants QUEUED, RUNNING, COMPLETED,
FAILED, CANCELED.  The source only ever compares codes for equality, so an
inductive type of five distinct constants is a faithful model. -/
inductive StatusCode where
  | QUEUED
  | RUNNING
  | COMPLETED
  | FAILED
  | CANCELED
  deriving DecidableEq, Repr

/-- `this.status = { code: code }` plus the optional `errorMessage` key
copied by `setStatus` (Task.js:214-221). -/
structure Status where
  code : StatusCode
  errorMessage : Option String
  deriving DecidableEq, Repr

/-- One element of the `options` array: `{ name, value }` pairs reduced by
`start()` into the runner options (Task.js:879-882). -/
structure TaskOption where
  name : String
  value : String
  deriving DecidableEq, Repr

/-- The mutable state of a `Task` instance (Task.js constructor, lines
44-144).  Fields that never influence any claim (images, gcpFiles,
geoFiles, imageGroupsFiles, imageLinks) are omitted; timer handles are
transient and not state. `projectId` is `Option String`, `none` standing
for the absent/null owner project of standalone mode. -/
structure TaskState where
  uuid : String
  projectId : Option String
  name : String
  dateCreated : Int
  dateStarted : Int
  processingTime : Int
  status : Status
  options : List TaskOption
  webhook : Option String
  skipPostProcessing : Bool
  outputs : List String
  output : List String
  progress : Int
  runningProcesses : List Nat
  deriving DecidableEq, Repr

/-- JavaScript truthiness of `this.projectId`: null/undefined and the
empty string are falsy. -/
def truthyStr : Option String → Bool
  | none => false
  | some s => s ≠ ""

/-- `setStatus(code, extra)` (Task.js:214-221): replaces `this.status`
with a fresh `{ code }` object and copies the keys of `extra` (only
`errorMessage` is ever passed). -/
def setStatus (t : TaskState) (code : StatusCode) (extra : Option String) : TaskState :=
  { t with status := { code := code, errorMessage := extra } }

/-- `Math.min(100, Math.max(0, globalProgress))` (Task.js:224). -/
def clamp0100 (g : Int) : Int :=
  min 100 (max 0 g)

/-- `updateProgress(globalProgress)` (Task.js:223-234, identical in
SingularTask.js:59-68): clamp to [0,100], then apply only when the
clamped value is `>=` the stored progress.  The trailing `callWebhooks()`
call does not modify task state. -/
def updateProgress (t : TaskState) (globalProgress : Int) : TaskState :=
  let g := clamp0100 globalProgress
  if g ≥ t.progress then { t with progress := g } else t

/-- `updateProcessingTime(resetTime)` (Task.js:236-240). -/
def updateProcessingTime (t : TaskState) (resetTime : Bool) (now : Int) : TaskState :=
  { t with processingTime := if resetTime then -1 else now - t.dateCreated }

/-- `cancel(cb)` (Task.js:272-295, identical in SingularTask.js:123-146).
Returns the new state and the value passed to the callback (`none` for
success, `some msg` for the error).  When the task was RUNNING every
tracked process is signalled (`kill(proc.pid)`, an external effect) and
the tracked list is cleared; `stopTrackingProcessingTime(true)` resets
`processingTime` to -1. -/
def cancel (t : TaskState) : TaskState × Option String :=
  if t.status.code = StatusCode.CANCELED then
    (t, some "Task already cancelled")
  else
    let t1 := setStatus t StatusCode.CANCELED none
    let t2 := if t.status.code = StatusCode.RUNNING then
        { t1 with runningProcesses := [] }
      else t1
    ({ t2 with processingTime := -1 }, none)

/-- `restart(options, cb)` (Task.js:1057-1076, identical in
SingularTask.js:482-501).  `now` stands for `new Date().getTime()`. -/
def restart (t : TaskState) (newOptions : Option (List TaskOption)) (now : Int) :
    TaskState × Option String :=
  if t.status.code = StatusCode.CANCELED ∨ t.status.code = StatusCode.FAILED
      ∨ t.status.code = StatusCode.COMPLETED then
    ({ t with status := { code := StatusCode.QUEUED, errorMessage := none },
              dateCreated := now, dateStarted := 0, output := [], progress := 0,
              processingTime := -1,
              options := newOptions.getD t.options }, none)
  else
    (t, some "Task cannot be restarted")

/-- `path.join(a, b)` for the simple two-segment joins used here. -/
def pathJoin (a b : String) : String :=
  a ++ "/" ++ b

/-- `Directories.data` (the data directory configured for the node; its
concrete value is configuration and no claim depends on it). -/
def directoriesData : String := "data"

/-- `getProjectFolderPath()` (Task.js:191-193). -/
def getProjectFolderPath (t : TaskState) : String :=
  pathJoin directoriesData t.uuid

/-- `getAssetsArchivePath(filename)` (Task.js:197-207): only `all.zip`
and `mesh.zip` are accepted; anything else yields `false` (here `none`). -/
def getAssetsArchivePath (t : TaskState) (filename : String) : Option String :=
  if filename = "all.zip" then
    some (pathJoin (getProjectFolderPath t) filename)
  else if filename = "mesh.zip" then
    some (pathJoin (getProjectFolderPath t) filename)
  else
    none

/-- The snapshot produced by `serialize()` (Task.js:1157-1171): exactly
the durable fields, excluding transient ones (runningProcesses, progress,
processingTime, timer handles). -/
structure SerializedTask where
  uuid : String
  projectId : Option String
  name : String
  dateCreated : Int
  dateStarted : Int
  status : Status
  options : List TaskOption
  webhook : Option String
  skipPostProcessing : Bool
  outputs : List String
  output : List String
  deriving DecidableEq, Repr

/-- `serialize()` (Task.js:1157-1171). -/
def serialize (t : TaskState) : SerializedTask :=
  { uuid := t.uuid, projectId := t.projectId, name := t.name,
    dateCreated := t.dateCreated, dateStarted := t.dateStarted,
    status := t.status, options := t.options, webhook := t.webhook,
    skipPostProcessing := t.skipPostProcessing, outputs := t.outputs,
    output := t.output }

/-- `Task.CreateFromSerialized(taskJson, done)` (Task.js:146-175, same
logic in SingularTask.js:575-602): the constructor builds a fresh task
(progress 0, empty runningProcesses, processingTime -1), then every key
of the snapshot overrides the corresponding field, and finally a RUNNING
status code is forced back to QUEUED (`task.status.code = QUEUED` mutates
only the code, keeping any errorMessage). -/
def CreateFromSerialized (j : SerializedTask) : TaskState :=
  let t : TaskState :=
    { uuid := j.uuid, projectId := j.projectId, name := j.name,
      dateCreated := j.dateCreated, dateStarted := j.dateStarted,
      processingTime := -1, status := j.status, options := j.options,
      webhook := j.webhook, skipPostProcessing := j.skipPostProcessing,
      outputs := j.outputs, output := j.output, progress := 0,
      runningProcesses := [] }
  if t.status.code = StatusCode.RUNNING then
    { t with status := { code := StatusCode.QUEUED,
                         errorMessage := t.status.errorMessage } }
  else t

/-!
Pipeline construction.  `start()` (Task.js:299-974) runs the primary ODM
engine and, on exit code 0, calls `postProcess()` (Task.js:324-871) which
builds an ordered array `tasks` of stage closures and hands it to
`async.series`.  `buildPipeline` below reproduces that array as a list of
declarative stage labels, following the pushes of Task.js lines 506-860
in source order.
-/

/-- The relevant configuration flags read by `postProcess()` from
`config` and `S3` (configuration loading and the storage client are
external collaborators; only the booleans branched on are modelled). -/
structure Config where
  test : Bool
  testSkipOrthophotos : Bool
  testSkipDems : Bool
  testSeconds : Nat
  testFailTasks : Bool
  has7z : Bool
  s3Enabled : Bool
  s3UploadEverything : Bool
  deriving DecidableEq, Repr

/-- One stage of the built pipeline.  `post k` is `runPostProcess(k)`
(Task.js:976-1053); `uploadSingle key msg` is an `S3.uploadSingle` stage
together with the log line it pushes on success; `uploadPaths` likewise
for `S3.uploadPaths`; `uploadAll` is the standalone upload-everything
stage; `archive` is a `createZipArchive` bundling stage; `meshZip` is the
managed-mode rename/rewrite-then-`mesh.zip` stage (Task.js:734-768). -/
inductive Stage where
  | sleep (seconds : Nat)
  | testFail
  | postProcessingScript
  | post (kind : String)
  | archive (filename : String) (files : List String)
  | uploadAll (paths : List String)
  | uploadSingle (key : String) (okMsg : String)
  | uploadPaths (paths : List String) (okMsg : String)
  | webhook (resourceType : String)
  | meshZip
  deriving DecidableEq, Repr

/-- The default `allPaths` list (Task.js:484-501). -/
def defaultAllPaths : List String :=
  ["odm_orthophoto/odm_orthophoto.tif",
   "odm_orthophoto/odm_orthophoto.png",
   "odm_orthophoto/odm_orthophoto.mbtiles",
   "odm_georeferencing",
   "odm_texturing",
   "odm_dem/dsm.tif",
   "odm_dem/dtm.tif",
   "dsm_tiles",
   "dtm_tiles",
   "orthophoto_tiles",
   "potree_pointcloud",
   "entwine_pointcloud",
   "images.json",
   "cameras.json",
   "task_output.txt",
   "odm_report"]

/-- `allPaths.splice(allPaths.indexOf(p), 1)` (Task.js:518, 532):
removes the first occurrence of `p`; when `p` is absent `indexOf` is -1
and `splice(-1, 1)` removes the last element. -/
def spliceOut (l : List String) (x : String) : List String :=
  if x ∈ l then l.erase x else l.dropLast

/-- The `allPaths` value after the user-output override (Task.js:504) and
the test-mode exclusions (Task.js:508-534). -/
def computeAllPaths (cfg : Config) (outputs : List String) : List String :=
  let allPaths := if outputs.length > 0 then outputs else defaultAllPaths
  if cfg.test then
    let a1 := if cfg.testSkipOrthophotos then
        ["odm_orthophoto/odm_orthophoto.tif",
         "odm_orthophoto/odm_orthophoto.mbtiles",
         "orthophoto_tiles"].foldl spliceOut allPaths
      else allPaths
    if cfg.testSkipDems then
      ["odm_dem/dsm.tif", "odm_dem/dtm.tif",
       "dsm_tiles", "dtm_tiles"].foldl spliceOut a1
    else a1
  else allPaths

/-- The test-mode-only stages (Task.js:536-548). -/
def testStages (cfg : Config) : List Stage :=
  if cfg.test then
    (if cfg.testSeconds > 0 then [Stage.sleep cfg.testSeconds] else [])
      ++ (if cfg.testFailTasks then [Stage.testFail] else [])
  else []

/-- Task.js:558 — `this.projectId && allPaths.includes('odm_georeferencing')
|| allPaths.includes('odm_georeferencing/odm_georeferenced_model.laz')`.
JavaScript gives `&&` higher precedence than `||`, so the `projectId`
conjunct guards only the first membership test. -/
def pcWanted (hasProject : Bool) (allPaths : List String) : Bool :=
  (hasProject && allPaths.contains "odm_georeferencing")
    || allPaths.contains "odm_georeferencing/odm_georeferenced_model.laz"

/-- Task.js:571, same precedence as `pcWanted`. -/
def orthoWanted (hasProject : Bool) (allPaths : List String) : Bool :=
  (hasProject && allPaths.contains "odm_orthophoto")
    || allPaths.contains "odm_orthophoto/odm_orthophoto.tif"

/-- Task.js:576, same precedence as `pcWanted`. -/
def meshWanted (hasProject : Bool) (allPaths : List String) : Bool :=
  (hasProject && allPaths.contains "odm_texturing")
    || allPaths.contains "odm_texturing/odm_textured_model.obj"

/-- The three point-cloud post-processing stages (Task.js:562-568):
bounding-box fix (`runFixBB`), Potree conversion (`runPotreeConverter`),
SRS metadata write (`runFindSrs`). -/
def pcStages : List Stage :=
  [Stage.post "pointcloud_pre", Stage.post "pointcloud", Stage.post "pointcloud_post"]

/-- The managed-mode (`projectId` truthy) S3 upload and webhook stages
(Task.js:616-859), pushed after all post-processing stages. -/
def s3ManagedStages (allPaths : List String) : List Stage :=
  (if allPaths.contains "odm_georeferencing"
      || allPaths.contains "odm_georeferencing/odm_georeferenced_model.laz" then
     [Stage.uploadSingle "pointcloud.laz" "Uploaded pointcloud, continuing",
      Stage.uploadPaths ["potree_pointcloud"] "Done uploading potree_pointcloud, continuing",
      Stage.webhook "pointcloud"]
   else [])
  ++ (if allPaths.contains "odm_orthophoto"
        || allPaths.contains "odm_orthophoto/odm_orthophoto.tif" then
       [Stage.uploadSingle "orthophoto-cog.tif" "Uploaded orthophoto, continuing",
        Stage.webhook "orthophoto"]
     else [])
  ++ (if allPaths.contains "odm_dem/dsm.tif" then
       [Stage.uploadSingle "dsm.tif" "Uploaded dsm, continuing",
        Stage.webhook "dsm"]
     else [])
  ++ (if allPaths.contains "odm_dem/dtm.tif" then
       [Stage.uploadSingle "dtm.tif" "Uploaded dtm, continuing",
        Stage.webhook "dtm"]
     else [])
  ++ (if allPaths.contains "odm_texturing"
        || allPaths.contains "odm_texturing/odm_textured_model.obj" then
       [Stage.meshZip,
        Stage.uploadSingle "mesh.zip" "Uploaded mesh.zip, continuing",
        Stage.webhook "mesh",
        Stage.uploadSingle "nexus.nxz" "Uploaded nexus.nxz, continuing",
        Stage.webhook "nexus",
        Stage.uploadSingle "tracks.csv" "Uploaded tracks.csv, continuing",
        Stage.uploadSingle "reconstruction.json" "Uploaded reconstruction.json, continuing",
        Stage.uploadSingle "report.pdf" "Uploaded report.pdf, continuing",
        Stage.uploadSingle "stats.json" "Uploaded stats.json, finishing",
        Stage.uploadSingle "shots.geojson" "Uploaded shots.geojson, finishing"]
     else [])

/-- The S3 section of `postProcess()` (Task.js:593-860): standalone mode
uploads `all.zip` (plus everything when `s3UploadEverything`); managed
mode uploads per artifact. -/
def s3Stages (cfg : Config) (hasProject : Bool) (allPaths : List String) : List Stage :=
  if hasProject then s3ManagedStages allPaths
  else [Stage.uploadAll (if cfg.s3UploadEverything then "all.zip" :: allPaths else ["all.zip"])]

/-- The full `tasks` array built by `postProcess()` (Task.js:506-860) in
source push order. -/
def buildPipeline (cfg : Config) (projectId : Option String) (skipPostProcessing : Bool)
    (outputs : List String) : List Stage :=
  let hasProject := truthyStr projectId
  let allPaths := computeAllPaths cfg outputs
  testStages cfg
    ++ (if !skipPostProcessing && !hasProject then [Stage.postProcessingScript] else [])
    ++ (if pcWanted hasProject allPaths then pcStages else [])
    ++ (if orthoWanted hasProject allPaths then [Stage.post "orthophoto"] else [])
    ++ (if meshWanted hasProject allPaths then
          [Stage.post "mesh_initial", Stage.post "mesh_post"] else [])
    ++ (if !hasProject then [Stage.archive "all.zip" allPaths] else [])
    ++ (if cfg.s3Enabled then s3Stages cfg hasProject allPaths else [])

/-!
Run execution.  `async.series(tasks, cb)` (Task.js:862) runs the stage
closures strictly in order, aborting only when a closure reports an
error; none of the closures inspects `this.status`.  The functions below
model the all-stages-succeed path of a run, tracking the task state and a
supply of fresh process ids for the handles pushed onto
`this.runningProcesses`.
-/

/-- `this.output.push(line)`. -/
def pushOutput (t : TaskState) (line : String) : TaskState :=
  { t with output := t.output ++ [line] }

/-- Effect of one successfully completing stage closure on the task
state, paired with the next fresh process id.  `runPostProcess` and
`runPostProcessingScript` push the spawned process handle onto
`runningProcesses` and report progress 93 on exit 0 (Task.js:454-481,
1027-1052); the archive stages push a `Compressing ...` log line and
report progress 97 (Task.js:325-369); upload stages push their success
log line; webhook stages do not modify state.  `testFail` always errors
in the source and therefore never completes; it is inert here because
this function models only the success path.  Log lines streamed from the
external processes themselves are environment-dependent and omitted. -/
def execStageOk (t : TaskState) (fresh : Nat) : Stage → TaskState × Nat
  | Stage.sleep _ => (t, fresh)
  | Stage.testFail => (t, fresh)
  | Stage.postProcessingScript =>
      (updateProgress { t with runningProcesses := t.runningProcesses ++ [fresh] } 93,
       fresh + 1)
  | Stage.post _ =>
      (updateProgress { t with runningProcesses := t.runningProcesses ++ [fresh] } 93,
       fresh + 1)
  | Stage.archive filename _ =>
      (updateProgress (pushOutput t ("Compressing " ++ filename ++ "\n")) 97, fresh)
  | Stage.meshZip =>
      (updateProgress (pushOutput t "Compressing mesh.zip\n") 97, fresh)
  | Stage.uploadAll _ => (pushOutput t "Done uploading to S3!", fresh)
  | Stage.uploadSingle _ okMsg => (pushOutput t okMsg, fresh)
  | Stage.uploadPaths _ okMsg => (pushOutput t okMsg, fresh)
  | Stage.webhook _ => (t, fresh)

/-- `async.series` over the stage closures on the path where every stage
succeeds: each stage runs in order, unconditionally — no closure checks
the cancellation flag (Task.js:862 and the closures it runs). -/
def runStagesOk : TaskState → Nat → List Stage → TaskState × Nat
  | t, fresh, [] => (t, fresh)
  | t, fresh, s :: rest =>
      runStagesOk (execStageOk t fresh s).1 (execStageOk t fresh s).2 rest

/-- Stages whose closure pushes a process handle onto
`runningProcesses`. -/
def isSpawnStage : Stage → Bool
  | Stage.post _ => true
  | Stage.postProcessingScript => true
  | _ => false

/-- The `finished` continuation (Task.js:301-322): persists and uploads
the log (external effects), then `updateProgress(100)` and
`stopTrackingProcessingTime()` — the latter with `resetTime` undefined,
so `processingTime` becomes `now - dateCreated`. -/
def finishedStep (t : TaskState) (now : Int) : TaskState :=
  updateProcessingTime (updateProgress t 100) false now

/-- The synchronous part of `start()` on a QUEUED task, through the
successful download fan-out, up to pushing the primary ODM process
handle (Task.js:873-927): start time tracking, record `dateStarted`, set
RUNNING, push the engine handle. -/
def startQueuedOk (t : TaskState) (now : Int) (odmPid : Nat) : TaskState :=
  let t1 := { t with processingTime := now - t.dateCreated, dateStarted := now }
  let t2 := setStatus t1 StatusCode.RUNNING none
  { t2 with runningProcesses := t2.runningProcesses ++ [odmPid] }

/-- `start(done)` guard (Task.js:873, 971-973): only a QUEUED task
starts; otherwise `start` returns false and changes nothing. -/
def startRun (t : TaskState) (now : Int) (odmPid : Nat) : Option TaskState :=
  if t.status.code = StatusCode.QUEUED then some (startQueuedOk t now odmPid) else none

/-- The ODM exit handler for exit code 0 (Task.js:938-950): the single
cancellation check of the whole run — if the task was canceled while the
engine ran, `postProcess()` is skipped and `finished()` runs directly;
otherwise the stage series runs, then COMPLETED is set (Task.js:862-865)
and `finished()` runs. -/
def odmExitZeroOk (t : TaskState) (fresh : Nat) (stages : List Stage) (now : Int) :
    TaskState :=
  if t.status.code = StatusCode.CANCELED then
    finishedStep t now
  else
    finishedStep (setStatus (runStagesOk t fresh stages).1 StatusCode.COMPLETED none) now

/-- A whole run on the success path: `start()` on a QUEUED task, engine
exits 0, post-processing stages all succeed. -/
def runToCompletionOk (cfg : Config) (t : TaskState) (now1 now2 : Int)
    (odmPid fresh : Nat) : Option TaskState :=
  (startRun t now1 odmPid).map fun t1 =>
    odmExitZeroOk t1 fresh
      (buildPipeline cfg t.projectId t.skipPostProcessing t.outputs) now2

/-- Status code and running-process list of an optional final state. -/
def runSummary (o : Option TaskState) : Option (StatusCode × List Nat) :=
  o.map fun u => (u.status.code, u.runningProcesses)

/-!
Webhook dispatch.  `callWebhooks` (Task.js:1119-1153) retries a failed
delivery through `notifyCallback(attempt)`: give up when `attempt > 5`,
otherwise POST; on error or non-200, retry after `attempt * 5000` ms
with `attempt + 1`.
-/

/-- `notifyCallback(attempt)` as a trace of the requests issued, given
`respOk a = true` iff the POST of attempt `a` gets a 200 response.  Each
trace entry is `(wait, attempt)`: the milliseconds waited before the
request (0 for the initial call, `a * 5000` scheduled by the failure of
attempt `a`) and the attempt counter.  `fuel` only bounds the structural
recursion; the `attempt > 5` guard is the source's give-up test and is
reached before fuel 7 runs out. -/
def notifyAux (respOk : Nat → Bool) : Nat → Nat → Nat → List (Nat × Nat)
  | 0, _, _ => []
  | fuel + 1, wait, attempt =>
      if attempt > 5 then []
      else if respOk attempt then [(wait, attempt)]
      else (wait, attempt) :: notifyAux respOk fuel (attempt * 5000) (attempt + 1)

/-- `notifyCallback(0)` (Task.js:1150): the dispatch entry point. -/
def callWebhookAttempts (respOk : Nat → Bool) : List (Nat × Nat) :=
  notifyAux respOk 7 0 0

/-- An endpoint failing on attempts 0-4 and succeeding on attempt 5. -/
def webhookRespOk5 : Nat → Bool := fun attempt => attempt == 5

/-- An endpoint that always fails. -/
def webhookRespNever : Nat → Bool := fun _ => false

/-!
Concrete states and configurations used by counterexamples and
witnesses.
-/

/-- Production-like configuration with the S3 collaborator enabled. -/
def cfgS3 : Config :=
  { test := false, testSkipOrthophotos := false, testSkipDems := false,
    testSeconds := 0, testFailTasks := false, has7z := true,
    s3Enabled := true, s3UploadEverything := false }

/-- Production-like configuration with the S3 collaborator disabled. -/
def cfgNoS3 : Config :=
  { cfgS3 with s3Enabled := false }

/-- A freshly created managed-mode task (QUEUED, progress 0). -/
def sampleQueuedTask : TaskState :=
  { uuid := "11111111-aaaa-bbbb-cccc-000000000001", projectId := some "p1",
    name := "sample", dateCreated := 0, dateStarted := 0, processingTime := -1,
    status := { code := StatusCode.QUEUED, errorMessage := none },
    options := [], webhook := some "http://example.com/hook",
    skipPostProcessing := false, outputs := ["odm_georeferencing"],
    output := [], progress := 0, runningProcesses := [] }

/-- A RUNNING task with two tracked process handles. -/
def sampleRunningTask : TaskState :=
  { sampleQueuedTask with
      status := { code := StatusCode.RUNNING, errorMessage := none },
      dateStarted := 10, processingTime := 25, progress := 40,
      runningProcesses := [11, 12] }

/-- A COMPLETED task (as left by a finished run). -/
def sampleCompletedTask : TaskState :=
  { sampleQueuedTask with
      status := { code := StatusCode.COMPLETED, errorMessage := none },
      dateStarted := 10, processingTime := 90, progress := 100,
      output := ["line1"], runningProcesses := [11] }

/-- A standalone QUEUED task with post-processing skipped, so that its
pipeline consists of the bundling stage alone. -/
def standaloneQueuedTask : TaskState :=
  { uuid := "22222222-aaaa-bbbb-cccc-000000000002", projectId := none,
    name := "standalone", dateCreated := 0, dateStarted := 0, processingTime := -1,
    status := { code := StatusCode.QUEUED, errorMessage := none },
    options := [], webhook := none, skipPostProcessing := true,
    outputs := ["images.json"], output := [], progress := 0,
    runningProcesses := [] }

/-- A task canceled in the middle of post-processing: `cancel()` already
set CANCELED and cleared the tracked process list. -/
def canceledMidRunTask : TaskState :=
  { sampleQueuedTask with
      status := { code := StatusCode.CANCELED, errorMessage := none },
      dateStarted := 10, processingTime := -1, progress := 40,
      runningProcesses := [] }

/-- A snapshot whose stored status is RUNNING. -/
def sampleRunningSnapshot : SerializedTask :=
  { uuid := "33333333-aaaa-bbbb-cccc-000000000003", projectId := some "p2",
    name := "restored", dateCreated := 5, dateStarted := 7,
    status := { code := StatusCode.RUNNING, errorMessage := none },
    options := [{ name := "dsm", value := "true" }], webhook := none,
    skipPostProcessing := false, outputs := [], output := ["a", "b"] }

/-!
Helper lemmas.
-/

theorem updateProgress_progress (t : TaskState) (g : Int) :
    (updateProgress t g).progress = max t.progress (clamp0100 g) := by
  simp only [updateProgress]
  split_ifs with h
  · simp [max_eq_right h]
  · simp [max_eq_left (le_of_not_le h)]

theorem updateProgress_runningProcesses (t : TaskState) (g : Int) :
    (updateProgress t g).runningProcesses = t.runningProcesses := by
  simp only [updateProgress]
  split_ifs <;> rfl

theorem updateProgress_status (t : TaskState) (g : Int) :
    (updateProgress t g).status = t.status := by
  simp only [updateProgress]
  split_ifs <;> rfl

theorem foldl_updateProgress (reports : List Int) (t : TaskState) :
    (reports.foldl updateProgress t).progress
      = reports.foldl (fun m r => max m (clamp0100 r)) t.progress := by
  induction reports generalizing t with
  | nil => rfl
  | cons r rest ih =>
      simp only [List.foldl_cons, ih, updateProgress_progress]

/-!
Claim theorems.
-/

/-- Claim C2: for any sequence of progress reports applied via
`updateProgress` to a task whose progress starts at 0, the stored
progress after each report (i.e. after folding any list of reports)
equals the running maximum of the reports so far, each clamped to
[0,100]; and a single update never decreases the stored progress. -/
theorem progress_running_max (t : TaskState) (h : t.progress = 0) :
    (∀ reports : List Int,
        (reports.foldl updateProgress t).progress
          = reports.foldl (fun m r => max m (clamp0100 r)) 0)
      ∧ ∀ t' : TaskState, ∀ g : Int, t'.progress ≤ (updateProgress t' g).progress := by
  constructor
  · intro reports
    rw [foldl_updateProgress, h]
  · intro t' g
    rw [updateProgress_progress]
    exact le_max_left _ _

/-- Witness for C2 at a concrete task and report sequence. -/
theorem progress_running_max_witness :
    ([(50 : Int), 30, 120, -5].foldl updateProgress sampleQueuedTask).progress = 100 := by
  rw [(progress_running_max sampleQueuedTask rfl).1]
  decide

/-- Claim C3: reconstructing a task from a serialized snapshot turns a
stored RUNNING status code into QUEUED and restores any other status
code unchanged (the error message is preserved in all cases). -/
theorem createFromSerialized_status (j : SerializedTask) :
    (CreateFromSerialized j).status.code
        = (if j.status.code = StatusCode.RUNNING then StatusCode.QUEUED
           else j.status.code)
      ∧ (CreateFromSerialized j).status.errorMessage = j.status.errorMessage := by
  unfold CreateFromSerialized
  split_ifs with h <;> simp_all

/-- Witness for C3 at a concrete RUNNING snapshot. -/
theorem createFromSerialized_status_witness :
    (CreateFromSerialized sampleRunningSnapshot).status.code = StatusCode.QUEUED := by
  rw [(createFromSerialized_status sampleRunningSnapshot).1]
  decide

/-- Claim C8: `cancel` on a RUNNING task reports no error, sets CANCELED
and empties the running-process list; a second `cancel` on the resulting
task reports an error and leaves the state unchanged. -/
theorem cancel_running_then_again (t : TaskState)
    (h : t.status.code = StatusCode.RUNNING) :
    (cancel t).2 = none
      ∧ (cancel t).1.status.code = StatusCode.CANCELED
      ∧ (cancel t).1.runningProcesses = []
      ∧ cancel (cancel t).1 = ((cancel t).1, some "Task already cancelled") := by
  unfold cancel setStatus
  simp [h]

/-- Witness for C8 at a concrete RUNNING task with two tracked
processes. -/
theorem cancel_running_then_again_witness :
    (cancel sampleRunningTask).1.runningProcesses = []
      ∧ (cancel (cancel sampleRunningTask).1).2 = some "Task already cancelled" := by
  refine ⟨(cancel_running_then_again sampleRunningTask rfl).2.2.1, ?_⟩
  rw [(cancel_running_then_again sampleRunningTask rfl).2.2.2]

/-- Claim C9: `restart` succeeds exactly from COMPLETED, FAILED or
CANCELED, in which case it resets status to QUEUED, clears progress, log
and timestamps and replaces the options when new ones are given; from
any other status it reports an error and leaves the task unchanged. -/
theorem restart_spec (t : TaskState) (o : Option (List TaskOption)) (now : Int) :
    restart t o now =
      (if t.status.code = StatusCode.COMPLETED ∨ t.status.code = StatusCode.FAILED
          ∨ t.status.code = StatusCode.CANCELED then
        ({ t with status := { code := StatusCode.QUEUED, errorMessage := none },
                  dateCreated := now, dateStarted := 0, output := [], progress := 0,
                  processingTime := -1, options := o.getD t.options }, none)
      else (t, some "Task cannot be restarted")) := by
  unfold restart
  split_ifs with h1 h2 <;> first | rfl | (exfalso; tauto)

/-- Witness for C9: restarting a concrete COMPLETED task succeeds and a
concrete QUEUED task cannot be restarted. -/
theorem restart_spec_witness :
    (restart sampleCompletedTask none 42).2 = none
      ∧ (restart sampleCompletedTask none 42).1.status.code = StatusCode.QUEUED
      ∧ restart sampleQueuedTask none 42
          = (sampleQueuedTask, some "Task cannot be restarted") := by
  refine ⟨?_, ?_, ?_⟩
  · rw [restart_spec sampleCompletedTask none 42]; decide
  · rw [restart_spec sampleCompletedTask none 42]; decide
  · rw [restart_spec sampleQueuedTask none 42]; decide

/-- Claim C10: `getAssetsArchivePath` returns no path for any filename
other than exactly `all.zip` or `mesh.zip`; for those two it returns the
path of that file directly inside the task's project folder. -/
theorem getAssetsArchivePath_spec (t : TaskState) (f : String)
    (h1 : f ≠ "all.zip") (h2 : f ≠ "mesh.zip") :
    getAssetsArchivePath t f = none
      ∧ getAssetsArchivePath t "all.zip"
          = some (pathJoin (getProjectFolderPath t) "all.zip")
      ∧ getAssetsArchivePath t "mesh.zip"
          = some (pathJoin (getProjectFolderPath t) "mesh.zip") := by
  unfold getAssetsArchivePath
  simp [h1, h2]

/-- Witness for C10 at a concrete task and a rejected filename. -/
theorem getAssetsArchivePath_spec_witness :
    getAssetsArchivePath sampleQueuedTask "orthophoto.zip" = none
      ∧ getAssetsArchivePath sampleQueuedTask "all.zip"
          = some (pathJoin (getProjectFolderPath sampleQueuedTask) "all.zip") := by
  refine ⟨?_, ?_⟩
  · exact (getAssetsArchivePath_spec sampleQueuedTask "orthophoto.zip"
      (by decide) (by decide)).1
  · exact (getAssetsArchivePath_spec sampleQueuedTask "orthophoto.zip"
      (by decide) (by decide)).2.1

/-- Claim C6: with an endpoint failing on attempts 0-4 and succeeding on
attempt 5, the dispatcher issues exactly the six requests of attempts
0..5, waiting 0, 0, 5000, 10000, 15000, 20000 ms before them (i.e.
inter-attempt delays 0, 5000, 10000, 15000, 20000 ms), and issues no
request after the success; with an endpoint that always fails it issues
exactly 6 requests (attempts 0..5) and then gives up. -/
theorem webhook_retry_trace :
    callWebhookAttempts webhookRespOk5
        = [(0, 0), (0, 1), (5000, 2), (10000, 3), (15000, 4), (20000, 5)]
      ∧ (callWebhookAttempts webhookRespNever).length = 6
      ∧ (callWebhookAttempts webhookRespNever).map Prod.snd = [0, 1, 2, 3, 4, 5] := by
  decide

/-- Claim C1, counterexample: in managed mode with S3 enabled and
requested outputs containing the point-cloud root identifier, the built
pipeline is NOT of the claimed shape "three point-cloud stages, then a
single upload stage, then the pointcloud webhook" (it contains two
upload stages); and with S3 disabled the pipeline contains no pointcloud
webhook at all. -/
theorem managed_pointcloud_single_upload_false :
    (¬ ∃ u : Stage,
        buildPipeline cfgS3 (some "p1") false ["odm_georeferencing"]
          = pcStages ++ [u, Stage.webhook "pointcloud"])
      ∧ Stage.webhook "pointcloud"
          ∉ buildPipeline cfgNoS3 (some "p1") false ["odm_georeferencing"] := by
  constructor
  · rintro ⟨u, h⟩
    have h6 : (buildPipeline cfgS3 (some "p1") false ["odm_georeferencing"]).length = 6 := by
      decide
    rw [h] at h6
    simp [pcStages] at h6
  · decide

/-- Claim C1 as amended: in managed mode, outside test mode, with S3
enabled, when the requested outputs contain a point-cloud family
identifier and no identifier of any other post-processing family, the
built pipeline consists of exactly the three point-cloud stages followed
by TWO upload stages (the georeferenced .laz file and the Potree
directory) and one webhook notification tagged `pointcloud`, and
contains no bundling stage. -/
theorem managed_pointcloud_pipeline (cfg : Config) (pid : Option String)
    (skipPostProcessing : Bool) (outputs : List String)
    (htest : cfg.test = false) (hs3 : cfg.s3Enabled = true)
    (hpid : truthyStr pid = true) (hne : outputs ≠ [])
    (hpc : (outputs.contains "odm_georeferencing"
        || outputs.contains "odm_georeferencing/odm_georeferenced_model.laz") = true)
    (ho1 : outputs.contains "odm_orthophoto" = false)
    (ho2 : outputs.contains "odm_orthophoto/odm_orthophoto.tif" = false)
    (hm1 : outputs.contains "odm_texturing" = false)
    (hm2 : outputs.contains "odm_texturing/odm_textured_model.obj" = false)
    (hd1 : outputs.contains "odm_dem/dsm.tif" = false)
    (hd2 : outputs.contains "odm_dem/dtm.tif" = false) :
    buildPipeline cfg pid skipPostProcessing outputs =
      pcStages ++
        [Stage.uploadSingle "pointcloud.laz" "Uploaded pointcloud, continuing",
         Stage.uploadPaths ["potree_pointcloud"] "Done uploading potree_pointcloud, continuing",
         Stage.webhook "pointcloud"] := by
  have hlen : outputs.length > 0 := List.length_pos.mpr hne
  have hall : computeAllPaths cfg outputs = outputs := by
    unfold computeAllPaths
    simp [htest, hlen]
  simp only [List.contains, Bool.or_eq_true, List.elem_iff, Bool.eq_false_iff,
    ne_eq] at hpc ho1 ho2 hm1 hm2 hd1 hd2
  unfold buildPipeline testStages s3Stages s3ManagedStages pcWanted orthoWanted meshWanted
  rw [hall]
  simp [htest, hs3, hpid, hpc, ho1, ho2, hm1, hm2, hd1, hd2, pcStages]

/-- Witness for C1's amended theorem at a concrete configuration and
output set. -/
theorem managed_pointcloud_pipeline_witness :
    buildPipeline cfgS3 (some "p1") false ["odm_georeferencing"] =
      pcStages ++
        [Stage.uploadSingle "pointcloud.laz" "Uploaded pointcloud, continuing",
         Stage.uploadPaths ["potree_pointcloud"] "Done uploading potree_pointcloud, continuing",
         Stage.webhook "pointcloud"] :=
  managed_pointcloud_pipeline cfgS3 (some "p1") false ["odm_georeferencing"]
    rfl rfl (by decide) (by decide) (by decide) (by decide) (by decide)
    (by decide) (by decide) (by decide) (by decide)

/-- Claim C7, counterexample: in standalone mode (no project id), an
output set containing the point-cloud root identifier
`odm_georeferencing` does NOT trigger the point-cloud stage group — the
claimed OR-semantics is not mode-independent. -/
theorem standalone_root_pointcloud_not_included :
    ("odm_georeferencing" ∈ (["odm_georeferencing"] : List String))
      ∧ Stage.post "pointcloud_pre"
          ∉ buildPipeline cfgNoS3 none false ["odm_georeferencing"]
      ∧ Stage.post "pointcloud"
          ∉ buildPipeline cfgNoS3 none false ["odm_georeferencing"] := by
  decide

theorem mem_ite_list {α : Type} (x : α) (c : Prop) [Decidable c] (l : List α) :
    (x ∈ if c then l else []) ↔ c ∧ x ∈ l := by
  split_ifs with h <;> simp [h]

theorem post_not_mem_testStages (cfg : Config) (s : String) :
    Stage.post s ∉ testStages cfg := by
  unfold testStages
  split_ifs <;> simp

theorem post_not_mem_s3Stages (cfg : Config) (hasProject : Bool) (allPaths : List String)
    (s : String) :
    Stage.post s ∉ s3Stages cfg hasProject allPaths := by
  unfold s3Stages s3ManagedStages
  split_ifs <;> simp

/-- Claim C7 as amended: for every mode and requested-output set, the
point-cloud stage group is included in the built pipeline iff
(managed mode AND the effective path set contains the root identifier
`odm_georeferencing`) OR the effective path set contains
`odm_georeferencing/odm_georeferenced_model.laz` — in standalone mode
the root identifier alone does not trigger the group, because the
JavaScript `&&` binds tighter than `||` in the guard. -/
theorem pointcloud_inclusion_iff (cfg : Config) (pid : Option String)
    (skipPostProcessing : Bool) (outputs : List String) :
    (Stage.post "pointcloud_pre" ∈ buildPipeline cfg pid skipPostProcessing outputs
        ∧ Stage.post "pointcloud" ∈ buildPipeline cfg pid skipPostProcessing outputs
        ∧ Stage.post "pointcloud_post" ∈ buildPipeline cfg pid skipPostProcessing outputs)
      ↔ ((truthyStr pid && (computeAllPaths cfg outputs).contains "odm_georeferencing")
          || (computeAllPaths cfg outputs).contains
              "odm_georeferencing/odm_georeferenced_model.laz") = true := by
  by_cases hc : pcWanted (truthyStr pid) (computeAllPaths cfg outputs) = true
  · constructor
    · intro _
      exact hc
    · intro _
      refine ⟨?_, ?_, ?_⟩ <;>
        · unfold buildPipeline
          simp [hc, pcStages, List.mem_append]
  · constructor
    · rintro ⟨h1, -, -⟩
      rw [Bool.not_eq_true] at hc
      unfold buildPipeline at h1
      simp [hc, List.mem_append, mem_ite_list, post_not_mem_testStages,
        post_not_mem_s3Stages] at h1
    · intro h
      exact absurd h hc

theorem pushOutput_runningProcesses (t : TaskState) (line : String) :
    (pushOutput t line).runningProcesses = t.runningProcesses := rfl

theorem execStageOk_runningProcesses (t : TaskState) (fresh : Nat) (s : Stage) :
    (execStageOk t fresh s).1.runningProcesses = t.runningProcesses
      ∨ (execStageOk t fresh s).1.runningProcesses = t.runningProcesses ++ [fresh] := by
  cases s <;>
    simp [execStageOk, updateProgress_runningProcesses, pushOutput_runningProcesses]

theorem runStagesOk_runningProcesses (stages : List Stage) (t : TaskState) (fresh : Nat) :
    ∃ l : List Nat,
      (runStagesOk t fresh stages).1.runningProcesses = t.runningProcesses ++ l := by
  induction stages generalizing t fresh with
  | nil => exact ⟨[], by simp [runStagesOk]⟩
  | cons s rest ih =>
      obtain ⟨l, hl⟩ := ih (execStageOk t fresh s).1 (execStageOk t fresh s).2
      rcases execStageOk_runningProcesses t fresh s with h | h
      · exact ⟨l, by rw [runStagesOk, hl, h]⟩
      · exact ⟨fresh :: l, by rw [runStagesOk, hl, h]; simp⟩

theorem finishedStep_runningProcesses (t : TaskState) (now : Int) :
    (finishedStep t now).runningProcesses = t.runningProcesses := by
  simp [finishedStep, updateProcessingTime, updateProgress_runningProcesses]

theorem finishedStep_status (t : TaskState) (now : Int) :
    (finishedStep t now).status = t.status := by
  simp [finishedStep, updateProcessingTime, updateProgress_status]

/-- Claim C4, counterexample: a concrete standalone task run to
successful completion through the modelled operations ends with status
COMPLETED while its `runningProcesses` list still holds the primary
engine handle pushed by `start()` — no run-completion path clears the
list, so it is non-empty in a reachable non-RUNNING state. -/
theorem completed_run_keeps_handles_cex :
    runSummary (runToCompletionOk cfgNoS3 standaloneQueuedTask 100 200 1 2)
      = some (StatusCode.COMPLETED, [1]) := by
  decide

theorem cancel_running_clears (t : TaskState)
    (h : t.status.code = StatusCode.RUNNING) :
    (cancel t).1.runningProcesses = [] := by
  unfold cancel setStatus
  simp [h]

/-- Claim C4 as amended: `cancel()` on a RUNNING task empties
`runningProcesses`, but the run-completion paths leave the list
untouched: every successful run started from a QUEUED task ends
COMPLETED with a non-empty `runningProcesses` (it still holds the
handles pushed during the run), so the claimed invariant holds for
QUEUED and CANCELED states but not for end-of-run COMPLETED states. -/
theorem run_completion_keeps_handles (cfg : Config) (t : TaskState)
    (hq : t.status.code = StatusCode.QUEUED) (now1 now2 : Int) (odmPid fresh : Nat) :
    (∀ u : TaskState, runToCompletionOk cfg t now1 now2 odmPid fresh = some u →
        u.status.code = StatusCode.COMPLETED ∧ u.runningProcesses ≠ [])
      ∧ (runToCompletionOk cfg t now1 now2 odmPid fresh).isSome = true
      ∧ ∀ t' : TaskState, t'.status.code = StatusCode.RUNNING →
          (cancel t').1.runningProcesses = [] := by
  have hstart : startRun t now1 odmPid = some (startQueuedOk t now1 odmPid) := by
    unfold startRun
    simp [hq]
  have hrun : runToCompletionOk cfg t now1 now2 odmPid fresh
      = some (odmExitZeroOk (startQueuedOk t now1 odmPid) fresh
          (buildPipeline cfg t.projectId t.skipPostProcessing t.outputs) now2) := by
    unfold runToCompletionOk
    rw [hstart]
    rfl
  have hnc : (startQueuedOk t now1 odmPid).status.code = StatusCode.RUNNING := rfl
  have hif : odmExitZeroOk (startQueuedOk t now1 odmPid) fresh
      (buildPipeline cfg t.projectId t.skipPostProcessing t.outputs) now2
      = finishedStep (setStatus
          (runStagesOk (startQueuedOk t now1 odmPid) fresh
            (buildPipeline cfg t.projectId t.skipPostProcessing t.outputs)).1
          StatusCode.COMPLETED none) now2 := by
    unfold odmExitZeroOk
    rw [hnc]
    simp
  refine ⟨?_, ?_, ?_⟩
  · intro u hu
    rw [hrun] at hu
    obtain rfl : odmExitZeroOk (startQueuedOk t now1 odmPid) fresh
        (buildPipeline cfg t.projectId t.skipPostProcessing t.outputs) now2 = u :=
      Option.some_injective _ hu
    rw [hif]
    constructor
    · rw [finishedStep_status]
      rfl
    · obtain ⟨l, hl⟩ := runStagesOk_runningProcesses
        (buildPipeline cfg t.projectId t.skipPostProcessing t.outputs)
        (startQueuedOk t now1 odmPid) fresh
      have hrp : (startQueuedOk t now1 odmPid).runningProcesses
          = t.runningProcesses ++ [odmPid] := rfl
      rw [finishedStep_runningProcesses]
      show (runStagesOk (startQueuedOk t now1 odmPid) fresh
          (buildPipeline cfg t.projectId t.skipPostProcessing t.outputs)).1.runningProcesses ≠ []
      rw [hl, hrp]
      simp
  · rw [hrun]
    rfl
  · intro t' h
    exact cancel_running_clears t' h

/-- Witness for C4's amended theorem at a concrete queued task. -/
theorem run_completion_keeps_handles_witness :
    (runToCompletionOk cfgNoS3 standaloneQueuedTask 100 200 1 2).isSome = true :=
  (run_completion_keeps_handles cfgNoS3 standaloneQueuedTask rfl 100 200 1 2).2.1

/-- Claim C5, counterexample: with the cancellation flag already set
(status CANCELED, as left by `cancel()` during post-processing), the
stage series still executes every remaining stage — here two whole
point-cloud stages spawn processes 7 and 8 after cancellation — instead
of skipping the remaining stages and proceeding directly to finalize. -/
theorem postprocess_ignores_cancellation :
    canceledMidRunTask.status.code = StatusCode.CANCELED
      ∧ runStagesOk canceledMidRunTask 7
          [Stage.post "pointcloud", Stage.post "pointcloud_post"]
          ≠ (canceledMidRunTask, 7)
      ∧ (runStagesOk canceledMidRunTask 7
          [Stage.post "pointcloud", Stage.post "pointcloud_post"]).1.runningProcesses
          = [7, 8] := by
  decide

theorem runStagesOk_counter (stages : List Stage) (t : TaskState) (fresh : Nat) :
    (runStagesOk t fresh stages).2 = fresh + stages.countP isSpawnStage := by
  induction stages generalizing t fresh with
  | nil => simp [runStagesOk]
  | cons s rest ih =>
      rw [runStagesOk, ih, List.countP_cons]
      cases s <;> simp [execStageOk, isSpawnStage] <;> omega

/-- Claim C5 as amended: the cancellation flag is checked at exactly one
stage boundary — after the primary engine stage: if the task is CANCELED
there, all post-processing stages are skipped and finalize runs
directly; once the post-processing series has begun, no stage boundary
checks the flag, and on the success path every remaining stage executes
(the fresh-process counter advances by one per spawning stage)
regardless of the task's status. -/
theorem cancellation_checked_once (t : TaskState)
    (hc : t.status.code = StatusCode.CANCELED) (fresh : Nat) (stages : List Stage)
    (now : Int) :
    odmExitZeroOk t fresh stages now = finishedStep t now
      ∧ ∀ t' : TaskState, ∀ f : Nat,
          (runStagesOk t' f stages).2 = f + stages.countP isSpawnStage := by
  constructor
  · unfold odmExitZeroOk
    simp [hc]
  · intro t' f
    exact runStagesOk_counter stages t' f

/-- Witness for C5's amended theorem at a concrete canceled task. -/
theorem cancellation_checked_once_witness :
    odmExitZeroOk canceledMidRunTask 7
        [Stage.post "pointcloud", Stage.post "pointcloud_post"] 300
      = finishedStep canceledMidRunTask 300 :=
  (cancellation_checked_once canceledMidRunTask rfl 7
    [Stage.post "pointcloud", Stage.post "pointcloud_post"] 300).1

end NodeODM
